import Mathlib

/-!
Verification of the wificond offload scan manager (OffloadScanManager and its
Notification Bridge, OffloadCallbackHandlersImpl).

The repository ships the class declaration (scanning/offload/offload_scan_manager.h)
and the unit tests (tests/offload_scan_manager_test.cpp); the member-function
bodies live in offload_scan_manager.cpp, which is not part of the sources here.
The enumerations and signatures below are taken from the header; the behaviour
of the member functions is modelled from the specification, as marked on each
definition.
-/

namespace Wificond

/-- StatusCode of OffloadScanManager, from offload_scan_manager.h: the
coordinator's cached belief about remote-service health. -/
inductive StatusCode where
  /-- Corresponds to OffloadStatusCode::OK -/
  | kNoError
  /-- Offload HAL service not available -/
  | kNoService
  /-- Corresponds to OffloadStatusCode::NO_CONNECTION -/
  | kNotConnected
  /-- Corresponds to OffloadStatusCode::TIMEOUT -/
  | kTimeOut
  /-- Corresponds to OffloadStatusCode::ERROR -/
  | kError
deriving DecidableEq, Repr

/-- ReasonCode of OffloadScanManager, from offload_scan_manager.h: the
out-parameter explaining why a single request failed.  The header declares
exactly these five enumerators. -/
inductive ReasonCode where
  /-- Default value -/
  | kNone
  /-- Offload HAL scans is not available -/
  | kNotAvailable
  /-- Offload HAL service is not subscribed to -/
  | kNotSubscribed
  /-- Offload HAL requested operation failure -/
  | kOperationFailed
  /-- Binder failed to deliver message to Offload HAL -/
  | kTransactionFailed
deriving DecidableEq, Repr

/-- OffloadStatus of the HAL (android.hardware.wifi.offload V1_0), the raw
outcome a remote operation or an error event reports. -/
inductive OffloadStatus where
  | OFFLOAD_STATUS_OK
  | OFFLOAD_STATUS_NO_CONNECTION
  | OFFLOAD_STATUS_TIMEOUT
  | OFFLOAD_STATUS_ERROR
deriving DecidableEq, Repr

/-- The mutable fields of OffloadScanManager named in offload_scan_manager.h:
offload_status_ and subscription_enabled_. -/
structure ManagerState where
  offload_status : StatusCode
  subscription_enabled : Bool
deriving DecidableEq, Repr

/-- The three remote requests the coordinator can issue against the HAL handle
(configureScans, subscribeScanResults, unsubscribeScanResults). -/
inductive RemoteCall where
  | configure
  | subscribe
  | unsubscribe
deriving DecidableEq, Repr

/-- Behaviour of the remote service for one call sequence: the
(OffloadStatus, transaction delivered) pair each remote request would report.
The Bool is the transport part of the std::pair<OffloadStatus, bool> that
VerifyAndConvertHIDLStatus receives: false means the transport failed to
deliver the message. -/
structure ServiceModel where
  configureResult : OffloadStatus × Bool
  subscribeResult : OffloadStatus × Bool
  unsubscribeResult : OffloadStatus × Bool
deriving DecidableEq, Repr

/-- Result of one public call: the returned bool, the reason out-parameter,
the manager state after the call, and the remote requests issued, in order. -/
structure CallResult where
  success : Bool
  reason : ReasonCode
  state : ManagerState
  calls : List RemoteCall
deriving DecidableEq, Repr

/-- Modelled from the spec: the body of
OffloadScanManager::VerifyAndConvertHIDLStatus is in the missing
offload_scan_manager.cpp; the spec's status/reason mapping table says an
undelivered transaction maps to (false, TransactionFailed), an OK outcome to
(true, None), and an operation the service explicitly refused to
(false, OperationFailed). -/
def VerifyAndConvertHIDLStatus (result : OffloadStatus × Bool) : Bool × ReasonCode :=
  if result.2 = false then
    (false, ReasonCode.kTransactionFailed)
  else
    match result.1 with
    | OffloadStatus.OFFLOAD_STATUS_OK => (true, ReasonCode.kNone)
    | _ => (false, ReasonCode.kOperationFailed)

/-- Modelled from the spec: the body of OffloadScanManager::startScan is in the
missing offload_scan_manager.cpp.  Per the spec: if status is not NoError,
fail fast with reason NotAvailable and no remote call; if not subscribed,
issue configure then subscribe, mapping a failure of either through the
status/reason table and setting subscribed on success; if already subscribed,
issue only configure, leaving subscription state unchanged. -/
def startScan (svc : ServiceModel) (s : ManagerState) : CallResult :=
  if s.offload_status ≠ StatusCode.kNoError then
    ⟨false, ReasonCode.kNotAvailable, s, []⟩
  else if s.subscription_enabled then
    ⟨(VerifyAndConvertHIDLStatus svc.configureResult).1,
     (VerifyAndConvertHIDLStatus svc.configureResult).2, s, [RemoteCall.configure]⟩
  else if (VerifyAndConvertHIDLStatus svc.configureResult).1 = false then
    ⟨false, (VerifyAndConvertHIDLStatus svc.configureResult).2, s, [RemoteCall.configure]⟩
  else if (VerifyAndConvertHIDLStatus svc.subscribeResult).1 = false then
    ⟨false, (VerifyAndConvertHIDLStatus svc.subscribeResult).2, s,
     [RemoteCall.configure, RemoteCall.subscribe]⟩
  else
    ⟨true, (VerifyAndConvertHIDLStatus svc.subscribeResult).2,
     { s with subscription_enabled := true },
     [RemoteCall.configure, RemoteCall.subscribe]⟩

/-- Modelled from the spec: the body of OffloadScanManager::stopScan is in the
missing offload_scan_manager.cpp.  Per the spec: if not subscribed, return
false with reason NotSubscribed and no remote call; if subscribed, issue one
unsubscribe request regardless of the cached status, clearing the subscription
flag and returning true when the service reports success. -/
def stopScan (svc : ServiceModel) (s : ManagerState) : CallResult :=
  if s.subscription_enabled = false then
    ⟨false, ReasonCode.kNotSubscribed, s, []⟩
  else if (VerifyAndConvertHIDLStatus svc.unsubscribeResult).1 then
    ⟨true, (VerifyAndConvertHIDLStatus svc.unsubscribeResult).2,
     { s with subscription_enabled := false }, [RemoteCall.unsubscribe]⟩
  else
    ⟨false, (VerifyAndConvertHIDLStatus svc.unsubscribeResult).2, s,
     [RemoteCall.unsubscribe]⟩

/-- Outcome of the service lookup at construction time: the
weak_ptr<OffloadServiceUtils> locator is absent, or its GetOffloadService()
lookup yields nothing, or a HAL handle is obtained. -/
inductive LocatorOutcome where
  | noUtils
  | noService
  | serviceAvailable
deriving DecidableEq, Repr

/-- What the constructor produces: the initial manager state and how many
times a Notification Bridge (OffloadCallback) was registered with the remote
service. -/
structure ConstructionResult where
  state : ManagerState
  bridgeRegistrations : Nat
deriving DecidableEq, Repr

/-- Modelled from the spec: the body of the OffloadScanManager constructor is
in the missing offload_scan_manager.cpp.  Per the spec: an absent locator
gives status Error; a locator whose service lookup yields nothing gives status
NoService; an obtained handle gives status NoError, subscription false, and a
Notification Bridge registered with the remote service exactly once. -/
def constructOffloadScanManager : LocatorOutcome → ConstructionResult
  | LocatorOutcome.noUtils => ⟨⟨StatusCode.kError, false⟩, 0⟩
  | LocatorOutcome.noService => ⟨⟨StatusCode.kNoService, false⟩, 0⟩
  | LocatorOutcome.serviceAvailable => ⟨⟨StatusCode.kNoError, false⟩, 1⟩

/-- The StatusCode each service-reported OffloadStatus maps to, following the
correspondences stated on the StatusCode enumerators in
offload_scan_manager.h. -/
def offloadStatusToStatusCode : OffloadStatus → StatusCode
  | OffloadStatus.OFFLOAD_STATUS_OK => StatusCode.kNoError
  | OffloadStatus.OFFLOAD_STATUS_NO_CONNECTION => StatusCode.kNotConnected
  | OffloadStatus.OFFLOAD_STATUS_TIMEOUT => StatusCode.kTimeOut
  | OffloadStatus.OFFLOAD_STATUS_ERROR => StatusCode.kError

/-- Modelled from the spec: the body of OffloadScanManager::ReportError
(reached from OffloadCallbackHandlersImpl::OnErrorHandler) is in the missing
offload_scan_manager.cpp.  Per the spec, an error event maps the
service-reported error into a StatusCode and overwrites the cached status; it
does not alter the subscription state. -/
def ReportError (status : OffloadStatus) (s : ManagerState) : ManagerState :=
  { s with offload_status := offloadStatusToStatusCode status }

/-- A scan result record delivered by the HAL (fields after
android.hardware.wifi.offload V1_0 ScanResult). -/
structure ScanResult where
  tsf : Nat
  rssi : Int
  frequency : Nat
  ssid : List Nat
deriving DecidableEq, Repr

/-- State visible to the Notification Bridge: the coordinator's fields plus
the log of batches handed to the caller-registered results handler, in the
order the handler was invoked. -/
structure BridgeState where
  mgr : ManagerState
  handlerLog : List (List ScanResult)
deriving DecidableEq, Repr

/-- Modelled from the spec: the body of OffloadScanManager::ReportScanResults
(reached from OffloadCallbackHandlersImpl::OnScanResultHandler) is in the
missing offload_scan_manager.cpp.  Per the spec, a result-ready event always
forwards the delivered batch to the caller-registered handler, unconditionally
of subscription bookkeeping or current status. -/
def ReportScanResults (batch : List ScanResult) (bs : BridgeState) : BridgeState :=
  { bs with handlerLog := bs.handlerLog ++ [batch] }

/-- Modelled from the spec: the body of OffloadScanManager::OnObjectDeath is in
the missing offload_scan_manager.cpp.  Per the spec, a death event sets status
NoService and leaves the subscription state as last known. -/
def OnObjectDeath (s : ManagerState) : ManagerState :=
  { s with offload_status := StatusCode.kNoService }

/-- One asynchronous event arriving at the Notification Bridge. -/
inductive Event where
  | scanResult (batch : List ScanResult)
  | error (status : OffloadStatus)
  | death
deriving DecidableEq, Repr

/-- Dispatch of one asynchronous event through the Notification Bridge into
the coordinator, per the spec's three event kinds. -/
def processEvent : Event → BridgeState → BridgeState
  | Event.scanResult batch, bs => ReportScanResults batch bs
  | Event.error status, bs => { bs with mgr := ReportError status bs.mgr }
  | Event.death, bs => { bs with mgr := OnObjectDeath bs.mgr }

/-- A sequence of asynchronous events processed in delivery order. -/
def processEvents : List Event → BridgeState → BridgeState
  | [], bs => bs
  | e :: rest, bs => processEvents rest (processEvent e bs)

/-- The batches carried by the result-ready events of an event sequence, in
delivery order. -/
def deliveredBatches : List Event → List (List ScanResult)
  | [] => []
  | Event.scanResult batch :: rest => batch :: deliveredBatches rest
  | _ :: rest => deliveredBatches rest

/-- A service whose configure, subscribe and unsubscribe requests all report
OK over a delivered transaction. -/
def svcAllOk : ServiceModel :=
  ⟨(OffloadStatus.OFFLOAD_STATUS_OK, true), (OffloadStatus.OFFLOAD_STATUS_OK, true),
   (OffloadStatus.OFFLOAD_STATUS_OK, true)⟩

/-- A service whose configure request is refused with ERROR and whose other
requests report OK. -/
def svcConfigRefusedA : ServiceModel :=
  ⟨(OffloadStatus.OFFLOAD_STATUS_ERROR, true), (OffloadStatus.OFFLOAD_STATUS_OK, true),
   (OffloadStatus.OFFLOAD_STATUS_OK, true)⟩

/-- A service whose configure request is refused with TIMEOUT and whose other
requests report OK: its raw outcomes differ from svcConfigRefusedA but map to
the same (success, reason) pairs. -/
def svcConfigRefusedB : ServiceModel :=
  ⟨(OffloadStatus.OFFLOAD_STATUS_TIMEOUT, true), (OffloadStatus.OFFLOAD_STATUS_OK, true),
   (OffloadStatus.OFFLOAD_STATUS_OK, true)⟩

/-- A remote outcome whose mapped success bit is true can only have been the
delivered OK outcome, so its mapped reason is kNone. -/
theorem hidl_success_reason (r : OffloadStatus × Bool)
    (h : (VerifyAndConvertHIDLStatus r).1 = true) :
    VerifyAndConvertHIDLStatus r = (true, ReasonCode.kNone) := by
  rcases r with ⟨st, b⟩
  cases b <;> cases st <;> simp_all [VerifyAndConvertHIDLStatus]

/-- Claim C1: every startScan call made while the cached StatusCode is not
NoError (NoService after a failed lookup as much as NotConnected after an
error event) returns false, sets the reason out-parameter to kNotAvailable,
and issues no remote call. -/
theorem startScan_failFast_when_status_not_NoError (svc : ServiceModel)
    (s : ManagerState) (h : s.offload_status ≠ StatusCode.kNoError) :
    startScan svc s = ⟨false, ReasonCode.kNotAvailable, s, []⟩ := by
  simp [startScan, h]

/-- Claim C1, witness: the coordinator degraded to kNotConnected by an error
event fails a startScan fast, with reason kNotAvailable and no remote call. -/
theorem startScan_failFast_witness :
    startScan svcAllOk ⟨StatusCode.kNotConnected, false⟩ =
      ⟨false, ReasonCode.kNotAvailable, ⟨StatusCode.kNotConnected, false⟩, []⟩ :=
  startScan_failFast_when_status_not_NoError svcAllOk
    ⟨StatusCode.kNotConnected, false⟩ (by decide)

/-- Claim C2: whenever the coordinator is subscribed, stopScan issues exactly
one unsubscribe request regardless of the cached status, and when the service
reports a delivered OK it clears the subscription flag and returns true. -/
theorem stopScan_when_subscribed (svc : ServiceModel) (s : ManagerState)
    (h : s.subscription_enabled = true) :
    (stopScan svc s).calls = [RemoteCall.unsubscribe] ∧
    (svc.unsubscribeResult = (OffloadStatus.OFFLOAD_STATUS_OK, true) →
      (stopScan svc s).success = true ∧
      (stopScan svc s).state.subscription_enabled = false) := by
  constructor
  · by_cases hb : (VerifyAndConvertHIDLStatus svc.unsubscribeResult).1 <;>
      simp [stopScan, h, hb]
  · intro hok
    have hb : (VerifyAndConvertHIDLStatus svc.unsubscribeResult).1 = true := by
      simp [hok, VerifyAndConvertHIDLStatus]
    simp [stopScan, h, hb]

/-- Claim C2, witness: after a successful startScan followed by an error event
degrading the status to kNotConnected, stopScan still issues exactly one
unsubscribe, succeeds, and clears the subscription flag. -/
theorem stopScan_when_subscribed_witness :
    (stopScan svcAllOk (ReportError OffloadStatus.OFFLOAD_STATUS_NO_CONNECTION
        (startScan svcAllOk
          (constructOffloadScanManager LocatorOutcome.serviceAvailable).state).state)).calls =
      [RemoteCall.unsubscribe] ∧
    ((stopScan svcAllOk (ReportError OffloadStatus.OFFLOAD_STATUS_NO_CONNECTION
        (startScan svcAllOk
          (constructOffloadScanManager LocatorOutcome.serviceAvailable).state).state)).success =
        true ∧
      (stopScan svcAllOk (ReportError OffloadStatus.OFFLOAD_STATUS_NO_CONNECTION
        (startScan svcAllOk
          (constructOffloadScanManager
            LocatorOutcome.serviceAvailable).state).state)).state.subscription_enabled =
        false) :=
  ⟨(stopScan_when_subscribed svcAllOk _ (by decide)).1,
   (stopScan_when_subscribed svcAllOk _ (by decide)).2 (by decide)⟩

/-- Claim C3: two consecutive startScan calls against a healthy service
(status kNoError, configure and subscribe reporting delivered OK) both return
true, the first issues configure then subscribe, the second issues only
configure — one subscribe and two configures in total — and the second call
leaves the subscription state unchanged. -/
theorem startScan_twice_healthy (svc : ServiceModel) (s : ManagerState)
    (hc : svc.configureResult = (OffloadStatus.OFFLOAD_STATUS_OK, true))
    (hsb : svc.subscribeResult = (OffloadStatus.OFFLOAD_STATUS_OK, true))
    (hst : s.offload_status = StatusCode.kNoError)
    (hsub : s.subscription_enabled = false) :
    (startScan svc s).success = true ∧
    (startScan svc (startScan svc s).state).success = true ∧
    (startScan svc s).calls = [RemoteCall.configure, RemoteCall.subscribe] ∧
    (startScan svc (startScan svc s).state).calls = [RemoteCall.configure] ∧
    ((startScan svc s).calls ++
        (startScan svc (startScan svc s).state).calls).count RemoteCall.configure = 2 ∧
    ((startScan svc s).calls ++
        (startScan svc (startScan svc s).state).calls).count RemoteCall.subscribe = 1 ∧
    (startScan svc (startScan svc s).state).state.subscription_enabled =
      (startScan svc s).state.subscription_enabled := by
  have h1 : startScan svc s =
      ⟨true, ReasonCode.kNone, { s with subscription_enabled := true },
       [RemoteCall.configure, RemoteCall.subscribe]⟩ := by
    simp [startScan, hst, hsub, hc, hsb, VerifyAndConvertHIDLStatus]
  have h2 : startScan svc (startScan svc s).state =
      ⟨true, ReasonCode.kNone, { s with subscription_enabled := true },
       [RemoteCall.configure]⟩ := by
    rw [h1]
    simp [startScan, hst, hc, VerifyAndConvertHIDLStatus]
  rw [h2, h1]
  simp [List.count_cons, List.count_append]

/-- Claim C3, witness: from a freshly constructed healthy coordinator, two
startScan calls against the all-OK service behave as claimed. -/
theorem startScan_twice_healthy_witness :
    (startScan svcAllOk
        (constructOffloadScanManager LocatorOutcome.serviceAvailable).state).success = true ∧
    (startScan svcAllOk (startScan svcAllOk
        (constructOffloadScanManager
          LocatorOutcome.serviceAvailable).state).state).success = true ∧
    (startScan svcAllOk
        (constructOffloadScanManager LocatorOutcome.serviceAvailable).state).calls =
      [RemoteCall.configure, RemoteCall.subscribe] ∧
    (startScan svcAllOk (startScan svcAllOk
        (constructOffloadScanManager
          LocatorOutcome.serviceAvailable).state).state).calls = [RemoteCall.configure] ∧
    ((startScan svcAllOk
        (constructOffloadScanManager LocatorOutcome.serviceAvailable).state).calls ++
      (startScan svcAllOk (startScan svcAllOk
        (constructOffloadScanManager
          LocatorOutcome.serviceAvailable).state).state).calls).count
        RemoteCall.configure = 2 ∧
    ((startScan svcAllOk
        (constructOffloadScanManager LocatorOutcome.serviceAvailable).state).calls ++
      (startScan svcAllOk (startScan svcAllOk
        (constructOffloadScanManager
          LocatorOutcome.serviceAvailable).state).state).calls).count
        RemoteCall.subscribe = 1 ∧
    (startScan svcAllOk (startScan svcAllOk
        (constructOffloadScanManager
          LocatorOutcome.serviceAvailable).state).state).state.subscription_enabled =
      (startScan svcAllOk
        (constructOffloadScanManager
          LocatorOutcome.serviceAvailable).state).state.subscription_enabled :=
  startScan_twice_healthy svcAllOk
    (constructOffloadScanManager LocatorOutcome.serviceAvailable).state
    rfl rfl rfl rfl

/-- Claim C4: construction with an absent locator yields status kError; with a
locator whose service lookup yields nothing, status kNoService; with an
obtainable handle, status kNoError, subscription state false, and a
Notification Bridge registered with the remote service exactly once. -/
theorem construction_initial_state :
    (constructOffloadScanManager LocatorOutcome.noUtils).state.offload_status =
      StatusCode.kError ∧
    (constructOffloadScanManager LocatorOutcome.noService).state.offload_status =
      StatusCode.kNoService ∧
    (constructOffloadScanManager
        LocatorOutcome.serviceAvailable).state.offload_status = StatusCode.kNoError ∧
    (constructOffloadScanManager
        LocatorOutcome.serviceAvailable).state.subscription_enabled = false ∧
    (constructOffloadScanManager
        LocatorOutcome.serviceAvailable).bridgeRegistrations = 1 := by
  decide

/-- Claim C5: an error event overwrites the cached status by the fixed mapping
(a no-connection report gives kNotConnected, a generic failure report gives
kError) and leaves the subscription state untouched, whatever the prior
state. -/
theorem errorEvent_overwrites_status_only (s : ManagerState) :
    (ReportError OffloadStatus.OFFLOAD_STATUS_NO_CONNECTION s).offload_status =
      StatusCode.kNotConnected ∧
    (ReportError OffloadStatus.OFFLOAD_STATUS_ERROR s).offload_status =
      StatusCode.kError ∧
    ∀ st : OffloadStatus,
      (ReportError st s).subscription_enabled = s.subscription_enabled :=
  ⟨rfl, rfl, fun _ => rfl⟩

/-- Claim C6: over any sequence of asynchronous events and from any bridge
state — any subscription state and any cached status, including one that
never subscribed — the batches appended to the handler log are exactly the
delivered result batches, unchanged and in delivery order. -/
theorem resultBatches_always_forwarded (evs : List Event) (bs : BridgeState) :
    (processEvents evs bs).handlerLog = bs.handlerLog ++ deliveredBatches evs := by
  induction evs generalizing bs with
  | nil => simp [processEvents, deliveredBatches]
  | cons e rest ih =>
    cases e with
    | scanResult batch =>
      simp [processEvents, processEvent, ReportScanResults, deliveredBatches, ih]
    | error status =>
      simp [processEvents, processEvent, deliveredBatches, ih]
    | death =>
      simp [processEvents, processEvent, deliveredBatches, ih]

/-- Claim C7: a startScan while status is kNoError and not subscribed issues
configure and then subscribe; a failure of either returns false with the
mapped reason and leaves the subscription state false, and success of both
sets the subscription state and returns true. -/
theorem startScan_configure_then_subscribe (svc : ServiceModel) (s : ManagerState)
    (hst : s.offload_status = StatusCode.kNoError)
    (hsub : s.subscription_enabled = false) :
    ((VerifyAndConvertHIDLStatus svc.configureResult).1 = false →
      startScan svc s =
        ⟨false, (VerifyAndConvertHIDLStatus svc.configureResult).2, s,
         [RemoteCall.configure]⟩) ∧
    ((VerifyAndConvertHIDLStatus svc.configureResult).1 = true →
      (VerifyAndConvertHIDLStatus svc.subscribeResult).1 = false →
      startScan svc s =
        ⟨false, (VerifyAndConvertHIDLStatus svc.subscribeResult).2, s,
         [RemoteCall.configure, RemoteCall.subscribe]⟩) ∧
    ((VerifyAndConvertHIDLStatus svc.configureResult).1 = true →
      (VerifyAndConvertHIDLStatus svc.subscribeResult).1 = true →
      startScan svc s =
        ⟨true, ReasonCode.kNone, { s with subscription_enabled := true },
         [RemoteCall.configure, RemoteCall.subscribe]⟩) := by
  refine ⟨fun hc => ?_, fun hc hs2 => ?_, fun hc hs2 => ?_⟩
  · simp [startScan, hst, hsub, hc]
  · simp [startScan, hst, hsub, hc, hs2]
  · have h2 := hidl_success_reason svc.subscribeResult hs2
    simp [startScan, hst, hsub, hc, hs2, h2]

/-- Claim C7, witness: from a fresh healthy state, the all-OK service makes
startScan configure, subscribe, set the subscription flag and return true. -/
theorem startScan_configure_then_subscribe_witness :
    startScan svcAllOk ⟨StatusCode.kNoError, false⟩ =
      ⟨true, ReasonCode.kNone, ⟨StatusCode.kNoError, true⟩,
       [RemoteCall.configure, RemoteCall.subscribe]⟩ :=
  (startScan_configure_then_subscribe svcAllOk ⟨StatusCode.kNoError, false⟩
      rfl rfl).2.2 (by decide) (by decide)

/-- Claim C8: every stopScan call while not subscribed returns false with
reason kNotSubscribed and issues no remote call. -/
theorem stopScan_fails_when_not_subscribed (svc : ServiceModel) (s : ManagerState)
    (h : s.subscription_enabled = false) :
    stopScan svc s = ⟨false, ReasonCode.kNotSubscribed, s, []⟩ := by
  simp [stopScan, h]

/-- Claim C8, witness: a stopScan on a freshly constructed healthy coordinator,
before any startScan, returns false with reason kNotSubscribed and no remote
call. -/
theorem stopScan_fails_when_not_subscribed_witness :
    stopScan svcAllOk (constructOffloadScanManager LocatorOutcome.serviceAvailable).state =
      ⟨false, ReasonCode.kNotSubscribed,
       (constructOffloadScanManager LocatorOutcome.serviceAvailable).state, []⟩ :=
  stopScan_fails_when_not_subscribed svcAllOk
    (constructOffloadScanManager LocatorOutcome.serviceAvailable).state (by decide)

/-- Claim C9: the status/reason mapping is a pure function of the remote
outcome alone — a delivered OK yields (true, kNone), a delivered refusal
yields (false, kOperationFailed), an undelivered transaction yields
(false, kTransactionFailed) — and it is the only interpretation point: two
services whose raw outcomes agree after the mapping make startScan and
stopScan behave identically from every state. -/
theorem VerifyAndConvertHIDLStatus_spec :
    VerifyAndConvertHIDLStatus (OffloadStatus.OFFLOAD_STATUS_OK, true) =
      (true, ReasonCode.kNone) ∧
    (∀ st : OffloadStatus, st ≠ OffloadStatus.OFFLOAD_STATUS_OK →
      VerifyAndConvertHIDLStatus (st, true) = (false, ReasonCode.kOperationFailed)) ∧
    (∀ st : OffloadStatus,
      VerifyAndConvertHIDLStatus (st, false) = (false, ReasonCode.kTransactionFailed)) ∧
    ∀ svc svc' : ServiceModel, ∀ s : ManagerState,
      VerifyAndConvertHIDLStatus svc.configureResult =
        VerifyAndConvertHIDLStatus svc'.configureResult →
      VerifyAndConvertHIDLStatus svc.subscribeResult =
        VerifyAndConvertHIDLStatus svc'.subscribeResult →
      VerifyAndConvertHIDLStatus svc.unsubscribeResult =
        VerifyAndConvertHIDLStatus svc'.unsubscribeResult →
      startScan svc s = startScan svc' s ∧ stopScan svc s = stopScan svc' s := by
  refine ⟨rfl, fun st h => ?_, fun st => rfl, fun svc svc' s h1 h2 h3 => ?_⟩
  · cases st <;> simp_all [VerifyAndConvertHIDLStatus]
  · constructor <;> simp only [startScan, stopScan, h1, h2, h3]

/-- Claim C9, witness: a delivered ERROR refusal maps to
(false, kOperationFailed), and two services refusing configure with different
raw outcomes but equal mapped outcomes give identical startScan results. -/
theorem VerifyAndConvertHIDLStatus_spec_witness :
    VerifyAndConvertHIDLStatus (OffloadStatus.OFFLOAD_STATUS_ERROR, true) =
      (false, ReasonCode.kOperationFailed) ∧
    startScan svcConfigRefusedA ⟨StatusCode.kNoError, false⟩ =
      startScan svcConfigRefusedB ⟨StatusCode.kNoError, false⟩ :=
  ⟨VerifyAndConvertHIDLStatus_spec.2.1 OffloadStatus.OFFLOAD_STATUS_ERROR (by decide),
   (VerifyAndConvertHIDLStatus_spec.2.2.2 svcConfigRefusedA svcConfigRefusedB
      ⟨StatusCode.kNoError, false⟩ (by decide) (by decide) (by decide)).1⟩

/-- Claim C10, counterexample: after construction with a locator whose service
lookup yielded nothing (status kNoService), startScan sets the reason
out-parameter to kNotAvailable itself — not to a value distinct from
kNotAvailable, as the claim states. -/
theorem startScan_noService_reason_cex :
    (startScan svcAllOk
        (constructOffloadScanManager LocatorOutcome.noService).state).reason =
      ReasonCode.kNotAvailable := by
  decide

/-- Claim C10 as amended: with status kNoService, startScan returns false with
reason kNotAvailable — the same reason as after a degradation to
kNotConnected, so the public interface does not distinguish the two cases —
and the declared ReasonCode enumeration consists of exactly the five
enumerators kNone, kNotAvailable, kNotSubscribed, kOperationFailed and
kTransactionFailed, with no separate not-supported value. -/
theorem startScan_noService_reason_amended (svc : ServiceModel) :
    startScan svc (constructOffloadScanManager LocatorOutcome.noService).state =
      ⟨false, ReasonCode.kNotAvailable,
       (constructOffloadScanManager LocatorOutcome.noService).state, []⟩ ∧
    (startScan svc (ReportError OffloadStatus.OFFLOAD_STATUS_NO_CONNECTION
        (constructOffloadScanManager LocatorOutcome.serviceAvailable).state)).reason =
      ReasonCode.kNotAvailable ∧
    ∀ r : ReasonCode, r = ReasonCode.kNone ∨ r = ReasonCode.kNotAvailable ∨
      r = ReasonCode.kNotSubscribed ∨ r = ReasonCode.kOperationFailed ∨
      r = ReasonCode.kTransactionFailed := by
  refine ⟨?_, ?_, fun r => by cases r <;> simp⟩
  · simp [startScan, constructOffloadScanManager]
  · simp [startScan, ReportError, offloadStatusToStatusCode, constructOffloadScanManager]

end Wificond
